import Mathlib

/-!
Formal model (shallow embedding) of the core of aws-secretsmanager-caching-python:

* `src/aws_secretsmanager_caching/cache/lru.py` — the LRU cache (`LRUCache`),
* `src/aws_secretsmanager_caching/config.py` — `SecretCacheConfig`,
* `src/aws_secretsmanager_caching/cache/items.py` — `SecretCacheObject`,
  `SecretCacheItem`, `SecretCacheVersion`,
* `src/aws_secretsmanager_caching/secret_cache.py` — the `SecretCache` facade.

Conventions of the embedding:

* The intrusive doubly-linked list of `LRUCache` is modelled as a Lean list of
  key/value pairs ordered head (most recently used) first; `_update_head` on a
  node becomes "move the pair to the front", the eviction
  `del self._cache[self._tail.key]; self._unlink(self._tail)` becomes
  `List.dropLast`.  The dict `self._cache` and the list always hold the same
  keys, so a single list represents both.
* Wall-clock time (`datetime.utcnow()`) is threaded through as an explicit
  `now : Nat`, measured in milliseconds; `timedelta(milliseconds=d)` adds `d`,
  `timedelta(seconds=s)` adds `1000 * s`.  The `randint` jitter draw in
  `SecretCacheItem._execute_refresh` is threaded as an explicit
  `jitter : Nat` (seconds).
* Python exceptions surface as the `PyErr` type; fallible operations return
  `Except PyErr _` or pair the new state with an `Option PyErr`.
* Python attribute-lookup failures are part of the modelled semantics: an
  access to an attribute that does not exist on the object raises
  `AttributeError`.  This matters in two places, noted at the definitions
  concerned: `SecretCacheConfig` objects built by `config.py` carry no
  `secret_cache_hook` attribute, and the private-name references
  `self.__get_result()` occurring textually inside the subclasses
  `SecretCacheItem` / `SecretCacheVersion` are mangled by Python to
  `_SecretCacheItem__get_result` / `_SecretCacheVersion__get_result`, names
  that no class in `items.py` defines.
-/

namespace AwsSecretsCache

/-- Python exception values that the modelled code can raise or store. -/
inductive PyErr where
  /-- `AttributeError`: an attribute lookup failed. -/
  | attributeError : PyErr
  /-- An error raised by the secretsmanager client (botocore error). -/
  | clientError : String → PyErr
  /-- `TypeError("Unexpected keyword argument '<key>'")`, as raised by
  `SecretCacheConfig.__init__`; the offending keyword is carried. -/
  | typeError : String → PyErr
deriving DecidableEq

/-! ## LRU cache (`cache/lru.py`) -/

/-- State of `LRUCache` (`lru.py` lines 21-32): `max_size` and the linked
list of key/value nodes, most recently used first.  `_size` always equals
`entries.length` and is therefore not carried separately. -/
structure LRUCache (K V : Type) where
  max_size : Nat
  entries : List (K × V)
deriving DecidableEq

namespace LRUCache

/-- A freshly constructed `LRUCache(max_size)`: empty dict, empty list. -/
def empty (K V : Type) (max_size : Nat) : LRUCache K V :=
  { max_size := max_size, entries := [] }

variable {K V : Type} [DecidableEq K]

/-- Membership test `key in self._cache`. -/
def containsKey (c : LRUCache K V) (k : K) : Bool :=
  c.entries.any (fun p => p.1 == k)

/-- The value currently mapped to `k`, if any (reading `self._cache[key].data`
without the recency side effect). -/
def lookup (c : LRUCache K V) (k : K) : Option V :=
  (c.entries.find? (fun p => p.1 == k)).map (fun p => p.2)

/-- `LRUCache.get` (`lru.py` lines 34-48): on a hit, `_update_head` moves the
node to the head of the list and the node's data is returned; on a miss
`None` is returned and nothing changes. -/
def get (c : LRUCache K V) (k : K) : Option V × LRUCache K V :=
  match c.entries.find? (fun p => p.1 == k) with
  | none => (none, c)
  | some p =>
      (some p.2,
       { c with entries := p :: c.entries.eraseP (fun q => q.1 == k) })

/-- `LRUCache.put_if_absent` (`lru.py` lines 50-73): if the key is present,
return `False` and change nothing.  Otherwise link the new node at the head,
and if the size now exceeds `max_size`, delete and unlink the tail node. -/
def putIfAbsent (c : LRUCache K V) (k : K) (v : V) : Bool × LRUCache K V :=
  if c.containsKey k then (false, c)
  else
    let entries := (k, v) :: c.entries
    let entries := if entries.length > c.max_size then entries.dropLast else entries
    (true, { c with entries := entries })

/-- The mutation of an entry's `data` object in place through the reference
returned by `get` (the cache items are mutable Python objects); the list
order is not affected. -/
def updateData (c : LRUCache K V) (k : K) (v : V) : LRUCache K V :=
  { c with entries := c.entries.map (fun p => if p.1 == k then (p.1, v) else p) }

/-- One externally visible cache operation, for stating properties about
arbitrary operation sequences. -/
inductive Op (K V : Type) where
  | get : K → Op K V
  | put : K → V → Op K V

/-- Apply one operation, keeping only the state. -/
def applyOp (c : LRUCache K V) : Op K V → LRUCache K V
  | .get k => (c.get k).2
  | .put k v => (c.putIfAbsent k v).2

/-- Run a sequence of operations from a given state. -/
def runOps (c : LRUCache K V) (ops : List (Op K V)) : LRUCache K V :=
  ops.foldl applyOp c

/-- Insert the keys of `ks` in order with `put_if_absent`, mapping each key
`k` to the value `f k`. -/
def insertKeys (c : LRUCache K V) (ks : List K) (f : K → V) : LRUCache K V :=
  ks.foldl (fun c k => (c.putIfAbsent k (f k)).2) c

end LRUCache

/-! ## Configuration (`config.py`) -/

/-- A Python value appearing in the configuration dictionary.  The only float
among the defaults is `timedelta(hours=1).total_seconds() = 3600.0`, whose
value is integral and exactly representable, so floats are carried as their
integral value. -/
inductive PyVal where
  | int : Int → PyVal
  | float : Int → PyVal
  | str : String → PyVal
deriving DecidableEq

/-- `SecretCacheConfig.OPTION_DEFAULTS` (`config.py` lines 47-54).  Note that
the dictionary has exactly these six keys; in particular there is no
`secret_cache_hook` key. -/
def OPTION_DEFAULTS : List (String × PyVal) :=
  [("max_cache_size", PyVal.int 1024),
   ("exception_retry_delay_base", PyVal.int 1),
   ("exception_retry_growth_factor", PyVal.int 2),
   ("exception_retry_delay_max", PyVal.int 3600),
   ("default_version_stage", PyVal.str "AWSCURRENT"),
   ("secret_refresh_interval", PyVal.float 3600)]

/-- Overwrite the value mapped to key `k` in an options dictionary. -/
def setOption (opts : List (String × PyVal)) (k : String) (v : PyVal) :
    List (String × PyVal) :=
  opts.map (fun p => if p.1 == k then (k, v) else p)

/-- `SecretCacheConfig.__init__` (`config.py` lines 56-70): start from a copy
of `OPTION_DEFAULTS`; for each keyword argument in order, overwrite the value
if the key is a known option, else raise
`TypeError("Unexpected keyword argument '<key>'")`.  The surviving options
become the object's attributes. -/
def secretCacheConfigInit (kwargs : List (String × PyVal)) :
    Except PyErr (List (String × PyVal)) :=
  kwargs.foldlM
    (fun opts kv =>
      if opts.any (fun p => p.1 == kv.1) then
        Except.ok (setOption opts kv.1 kv.2)
      else
        Except.error (PyErr.typeError kv.1))
    OPTION_DEFAULTS

/-- Attribute read on a constructed configuration object. -/
def configAttr (opts : List (String × PyVal)) (k : String) : Option PyVal :=
  (opts.find? (fun p => p.1 == k)).map (fun p => p.2)

/-- The option names recognized by `SecretCacheConfig`. -/
def recognizedOptionNames : List String :=
  ["max_cache_size", "exception_retry_delay_base", "exception_retry_growth_factor",
   "exception_retry_delay_max", "default_version_stage", "secret_refresh_interval"]

/-! ## Secret cache items (`cache/items.py`) -/

/-- The result of a `DescribeSecret` call, as consumed by `items.py`: the
optional `"VersionIdsToStages"` entry (an insertion-ordered dict from version
id to its list of stage labels), plus whether the dict holds any other keys
(which only matters for the truthiness test `if not result`). -/
structure DescribeResult where
  versionIdsToStages : Option (List (String × List String))
  hasOtherKeys : Bool
deriving DecidableEq

/-- The result of a `GetSecretValue` call; only the payload fields the cache
reads are carried. -/
structure SecretValue where
  secretString : Option String
  secretBinary : Option String
deriving DecidableEq

/-- A value stored in a cache object's `_result` slot: `SecretCacheItem`
stores describe results, `SecretCacheVersion` stores version payloads (the
slot is dynamically typed in Python). -/
inductive CachedResult where
  | describe : DescribeResult → CachedResult
  | secretValue : SecretValue → CachedResult
deriving DecidableEq

/-- A `SecretCacheHook` implementation: `put` prepares an object for storing,
`get` recovers it (both assumed total, as the shipped implementations are). -/
structure Hook where
  put : CachedResult → CachedResult
  get : CachedResult → CachedResult

/-- The configuration object as read by `items.py`.  Numeric fields are the
values consumed by the arithmetic in `items.py`: the two retry delays are used
as milliseconds (`timedelta(milliseconds=delay)`), `secret_refresh_interval`
as seconds.  `secret_cache_hook` models the Python attribute:
`none` — the object has no such attribute (reading it raises
`AttributeError`; this is the case for every object `config.py` builds, since
`OPTION_DEFAULTS` has no `secret_cache_hook` key);
`some none` — the attribute exists and is `None`;
`some (some h)` — the attribute is the hook `h`. -/
structure CacheConfig where
  exception_retry_delay_base : Nat
  exception_retry_growth_factor : Nat
  exception_retry_delay_max : Nat
  default_version_stage : String
  secret_refresh_interval : Nat
  secret_cache_hook : Option (Option Hook)

/-- The configuration the facade uses by default, i.e. the attributes of
`SecretCacheConfig()` per `OPTION_DEFAULTS`; as noted there, the object lacks
the `secret_cache_hook` attribute. -/
def defaultCacheConfig : CacheConfig :=
  { exception_retry_delay_base := 1
    exception_retry_growth_factor := 2
    exception_retry_delay_max := 3600
    default_version_stage := "AWSCURRENT"
    secret_refresh_interval := 3600
    secret_cache_hook := none }

/-- The secretsmanager client, reduced to the two operations the cache
invokes.  A stubbed backend answers deterministically per argument. -/
structure SMClient where
  describe_secret : String → Except PyErr DescribeResult
  get_secret_value : String → String → Except PyErr SecretValue

/-- The mutable fields `SecretCacheObject.__init__` sets up (`items.py`
lines 41-49), minus the immutable `_config` / `_client` / `_secret_id`,
which are threaded separately. -/
structure SecretCacheObjectState where
  result : Option CachedResult
  exception : Option PyErr
  exception_count : Nat
  refresh_needed : Bool
  next_retry_time : Option Nat
deriving DecidableEq

/-- The field values after `SecretCacheObject.__init__`. -/
def objectInit : SecretCacheObjectState :=
  { result := none, exception := none, exception_count := 0,
    refresh_needed := true, next_retry_time := none }

/-- `SecretCacheObject._is_refresh_needed` (`items.py` lines 51-63). -/
def isRefreshNeededBase (s : SecretCacheObjectState) (now : Nat) : Bool :=
  if s.refresh_needed then true
  else
    match s.exception with
    | none => false
    | some _ =>
        match s.next_retry_time with
        | none => false
        | some t => t ≤ now

/-- `SecretCacheObject.__set_result` (`items.py` lines 131-136).  The body is
`if self._config.secret_cache_hook is None: self._result = result` followed —
with no `return` in between — by the unconditional
`self._result = self._config.secret_cache_hook.put(result)`.  Hence:
with the attribute missing, the first line's attribute read raises and
nothing is stored; with the attribute `None`, the raw result is stored and
then `None.put` raises; with a hook present, the transformed result is
stored and no error occurs.  The raised error is returned alongside the new
state because the only caller (`__refresh`) catches it. -/
def setResult (cfg : CacheConfig) (s : SecretCacheObjectState) (r : CachedResult) :
    SecretCacheObjectState × Option PyErr :=
  match cfg.secret_cache_hook with
  | none => (s, some PyErr.attributeError)
  | some none => ({ s with result := some r }, some PyErr.attributeError)
  | some (some h) => ({ s with result := some (h.put r) }, none)

/-- `SecretCacheObject.__get_result` (`items.py` lines 124-129).  (The only
textual call sites, `items.py` lines 211 and 260, sit inside the subclasses
and are therefore mangled to subclass-private names that do not exist, so
this method is never actually reached; it is embedded for completeness.) -/
def getResult (cfg : CacheConfig) (s : SecretCacheObjectState) :
    Except PyErr (Option CachedResult) :=
  match cfg.secret_cache_hook with
  | none => Except.error PyErr.attributeError
  | some none => Except.ok s.result
  | some (some h) => Except.ok (s.result.map h.get)

/-- The `except` branch of `SecretCacheObject.__refresh` (`items.py` lines
97-104): store the exception, compute
`delay = base * growth ** count` with the pre-increment count, increment the
count, cap the delay at the max, and set the next retry time `delay`
milliseconds from now. -/
def applyBackoff (cfg : CacheConfig) (s : SecretCacheObjectState) (e : PyErr)
    (now : Nat) : SecretCacheObjectState :=
  let delay := cfg.exception_retry_delay_base *
      cfg.exception_retry_growth_factor ^ s.exception_count
  let delay' := min delay cfg.exception_retry_delay_max
  { s with exception := some e,
           exception_count := s.exception_count + 1,
           next_retry_time := some (now + delay') }

/-- `SecretCacheObject.__refresh` as executed by a `SecretCacheVersion`
(`items.py` lines 84-104 with `_execute_refresh` = the
`GetSecretValue` call, whose outcome is the `fetch` argument): do nothing
unless refresh is needed; clear the flag; on a successful fetch run
`__set_result` and, if that too succeeds, clear the stored exception and
reset the counter; on any raise store the exception and apply backoff. -/
def versionRefresh (cfg : CacheConfig) (s : SecretCacheObjectState) (now : Nat)
    (fetch : Except PyErr SecretValue) : SecretCacheObjectState :=
  if ¬ isRefreshNeededBase s now then s
  else
    let s := { s with refresh_needed := false }
    match fetch with
    | Except.error e => applyBackoff cfg s e now
    | Except.ok sv =>
        match setResult cfg s (CachedResult.secretValue sv) with
        | (s', none) => { s' with exception := none, exception_count := 0 }
        | (s', some e) => applyBackoff cfg s' e now

/-- The stage normalization opening `SecretCacheObject.get_secret_value`
(`items.py` lines 115-116): `if not version_stage:` replaces any falsy
requested stage — `None` as well as the empty string — with
`self._config.default_version_stage`. -/
def normalizeStage (default : String) : Option String → String
  | none => default
  | some s => if s = "" then default else s

/-- `get_secret_value` as executed by a `SecretCacheVersion` (`items.py`
lines 106-122): normalize the stage, run `__refresh`, then call
`self._get_version(version_stage)`.  `SecretCacheVersion._get_version`
(`items.py` lines 251-260) is `return self.__get_result()`; occurring inside
`class SecretCacheVersion`, Python mangles the name to
`self._SecretCacheVersion__get_result`, an attribute no class defines
(the method lives on `SecretCacheObject` as `_SecretCacheObject__get_result`),
so the call raises `AttributeError` and the subsequent
`if not value and self._exception` / `deepcopy` lines are unreachable. -/
def versionGetSecretValue (cfg : CacheConfig) (s : SecretCacheObjectState)
    (now : Nat) (fetch : Except PyErr SecretValue) (version_stage : Option String) :
    Except PyErr (Option SecretValue) × SecretCacheObjectState :=
  let _stage := normalizeStage cfg.default_version_stage version_stage
  let s := versionRefresh cfg s now fetch
  (Except.error PyErr.attributeError, s)

/-- `SecretCacheItem._get_version_id` (`items.py` lines 169-189): from a
describe result, the first version id whose stage-label list contains the
requested stage; `None` when the result is falsy, has no
`"VersionIdsToStages"` key, or no version carries the stage. -/
def getVersionId (result : Option DescribeResult) (version_stage : String) :
    Option String :=
  match result with
  | none => none
  | some r =>
      if r.versionIdsToStages.isNone ∧ r.hasOtherKeys = false then none
      else
        match r.versionIdsToStages with
        | none => none
        | some vits =>
            match (vits.filter (fun p => version_stage ∈ p.2)).map (fun p => p.1) with
            | [] => none
            | id :: _ => some id

/-- The mutable state of a `SecretCacheItem` (`items.py` lines 141-155): the
shared `SecretCacheObject` fields, the bounded child LRU `_versions`
(capacity 10) of `SecretCacheVersion` states keyed by version id, and
`_next_refresh_time`.  The `_secret_id` is carried along for the client
calls. -/
structure SecretCacheItemState where
  base : SecretCacheObjectState
  secret_id : String
  versions : LRUCache String SecretCacheObjectState
  next_refresh_time : Nat

/-- The state after `SecretCacheItem.__init__` at wall-clock time `now`
(`_next_refresh_time = datetime.utcnow()`). -/
def itemInit (secret_id : String) (now : Nat) : SecretCacheItemState :=
  { base := objectInit, secret_id := secret_id,
    versions := LRUCache.empty String SecretCacheObjectState 10,
    next_refresh_time := now }

/-- `SecretCacheItem._is_refresh_needed` (`items.py` lines 157-167): the base
condition, else never while an exception is stored, else when the scheduled
refresh time has passed. -/
def itemIsRefreshNeeded (s : SecretCacheItemState) (now : Nat) : Bool :=
  if isRefreshNeededBase s.base now then true
  else if s.base.exception.isSome then false
  else s.next_refresh_time ≤ now

/-- `SecretCacheObject.__refresh` as executed by a `SecretCacheItem`
(`items.py` lines 84-104 with `_execute_refresh` as at lines 191-200): the
fetch is `describe_secret`; on its success `_execute_refresh` also draws
`jitter ∈ [round(ttl/2), ttl]` seconds and sets
`_next_refresh_time = now + jitter` before returning, after which
`__set_result` runs as in the base class. -/
def itemRefresh (cfg : CacheConfig) (client : SMClient) (s : SecretCacheItemState)
    (now jitter : Nat) : SecretCacheItemState :=
  if ¬ itemIsRefreshNeeded s now then s
  else
    let s := { s with base.refresh_needed := false }
    match client.describe_secret s.secret_id with
    | Except.error e => { s with base := applyBackoff cfg s.base e now }
    | Except.ok d =>
        let s := { s with next_refresh_time := now + 1000 * jitter }
        match setResult cfg s.base (CachedResult.describe d) with
        | (b, none) => { s with base := { b with exception := none, exception_count := 0 } }
        | (b, some e) => { s with base := applyBackoff cfg b e now }

/-- `get_secret_value` as executed by a `SecretCacheItem` (`items.py` lines
106-122): normalize the stage, run `__refresh`, then call
`self._get_version(version_stage)`.  `SecretCacheItem._get_version`
(`items.py` lines 202-219) opens with
`self._get_version_id(self.__get_result(), version_stage)`; occurring inside
`class SecretCacheItem`, `self.__get_result` is mangled to
`self._SecretCacheItem__get_result`, an attribute no class defines, so the
call raises `AttributeError` before `_get_version_id` or the child
`_versions` LRU is reached. -/
def itemGetSecretValue (cfg : CacheConfig) (client : SMClient)
    (s : SecretCacheItemState) (now jitter : Nat) (version_stage : Option String) :
    Except PyErr (Option SecretValue) × SecretCacheItemState :=
  let _stage := normalizeStage cfg.default_version_stage version_stage
  let s := itemRefresh cfg client s now jitter
  (Except.error PyErr.attributeError, s)

/-! ## The facade (`secret_cache.py`) -/

/-- The state of a `SecretCache` facade: its configuration, client, and the
top-level LRU of `SecretCacheItem`s. -/
structure SecretCacheState where
  config : CacheConfig
  client : SMClient
  cache : LRUCache String SecretCacheItemState

/-- A freshly constructed `SecretCache` over the given configuration and
client (`secret_cache.py` lines 33-55): the top-level LRU has capacity
`config.max_cache_size`; `max_cache_size` is threaded in separately because
`CacheConfig` carries only the fields `items.py` reads. -/
def secretCacheInit (cfg : CacheConfig) (max_cache_size : Nat) (client : SMClient) :
    SecretCacheState :=
  { config := cfg, client := client,
    cache := LRUCache.empty String SecretCacheItemState max_cache_size }

/-- `SecretCache._get_cached_secret` (`secret_cache.py` lines 57-75): `get`
from the LRU; on a miss, `put_if_absent` a fresh `SecretCacheItem` and `get`
again.  The second `get` can still miss (capacity-0 LRU), in which case the
Python function returns `None`. -/
def getCachedSecret (st : SecretCacheState) (secret_id : String) (now : Nat) :
    Option SecretCacheItemState × SecretCacheState :=
  match st.cache.get secret_id with
  | (some item, cache') => (some item, { st with cache := cache' })
  | (none, cache') =>
      let cache'' := (cache'.putIfAbsent secret_id (itemInit secret_id now)).2
      match cache''.get secret_id with
      | (item?, cache''') => (item?, { st with cache := cache''' })

/-- `SecretCache.get_secret_string` (`secret_cache.py` lines 77-92):
get-or-create the item, call `get_secret_value` on it (its in-place state
mutation is written back to the item's cache slot), return `None` for an
absent result, else the `"SecretString"` field.  If `_get_cached_secret`
returned `None` (capacity-0 cache), the method call on `None` raises
`AttributeError`. -/
def getSecretString (st : SecretCacheState) (secret_id : String)
    (now jitter : Nat) (version_stage : Option String) :
    Except PyErr (Option String) × SecretCacheState :=
  match getCachedSecret st secret_id now with
  | (none, st') => (Except.error PyErr.attributeError, st')
  | (some item, st') =>
      let (res, item') := itemGetSecretValue st'.config st'.client item now jitter version_stage
      let st'' := { st' with cache := st'.cache.updateData secret_id item' }
      match res with
      | Except.error e => (Except.error e, st'')
      | Except.ok none => (Except.ok none, st'')
      | Except.ok (some sv) => (Except.ok sv.secretString, st'')

/-- `SecretCache.refresh_secret_now` (`secret_cache.py` lines 111-117):
`self._get_cached_secret(secret_id).refresh_secret_now()`.  The entry is
fetched or created first, but no class in `cache/items.py` defines a
`refresh_secret_now` method (`SecretCacheObject` defines only
`_is_refresh_needed`, `_execute_refresh`, `_get_version`, `__refresh`,
`get_secret_value`, `__get_result` and `__set_result`, and the subclasses
add no such method either), so the attribute lookup on the item — or on
`None` for a capacity-0 cache — raises `AttributeError`. -/
def refreshSecretNow (st : SecretCacheState) (secret_id : String) (now : Nat) :
    Except PyErr SecretCacheState :=
  let _found := getCachedSecret st secret_id now
  Except.error PyErr.attributeError

/-! ## Concrete scenario fixtures -/

/-- The identity cache hook: stores and loads values unchanged. -/
def idHook : Hook := { put := id, get := id }

/-- A configuration whose `secret_cache_hook` attribute exists and is the
identity hook.  (`config.py` itself cannot produce a hook-carrying
configuration, but `items.py` accepts any duck-typed config object, and the
repository's own tests pass configs carrying a hook.) -/
def hookedCacheConfig : CacheConfig :=
  { defaultCacheConfig with secret_cache_hook := some (some idHook) }

/-- The stubbed backend of the end-to-end scenario:
`describe_secret("id")` answers metadata staging version `"v1"` as
`AWSCURRENT`, `get_secret_value("id", "v1")` answers a payload whose string
field is `"mysecret"`. -/
def endToEndStubClient : SMClient :=
  { describe_secret := fun sid =>
      if sid == "id" then Except.ok ⟨some [("v1", ["AWSCURRENT"])], false⟩
      else Except.error (PyErr.clientError "no such secret")
    get_secret_value := fun sid vid =>
      if sid == "id" && vid == "v1" then Except.ok ⟨some "mysecret", none⟩
      else Except.error (PyErr.clientError "no such version") }

/-- A stubbed backend whose describe result carries no
`"VersionIdsToStages"` key, only other fields (like the repository's
`test_get_secret_string_no_versions` stub, whose response is
`{"Name": "test"}`). -/
def noVersionsStubClient : SMClient :=
  { describe_secret := fun _ => Except.ok ⟨none, true⟩
    get_secret_value := fun _ _ => Except.error (PyErr.clientError "unused") }

end AwsSecretsCache

/-! ## Helper lemmas about the LRU cache -/

namespace AwsSecretsCache

namespace LRUCache

variable {K V : Type} [DecidableEq K]

theorem get_fst (c : LRUCache K V) (k : K) : (c.get k).1 = c.lookup k := by
  unfold get lookup
  cases c.entries.find? (fun p => p.1 == k) <;> rfl

theorem get_max_size (c : LRUCache K V) (k : K) : ((c.get k).2).max_size = c.max_size := by
  unfold get
  cases c.entries.find? (fun p => p.1 == k) <;> rfl

theorem get_length (c : LRUCache K V) (k : K) :
    ((c.get k).2).entries.length = c.entries.length := by
  unfold get
  cases hfind : c.entries.find? (fun p => p.1 == k) with
  | none => rfl
  | some p =>
      have hmem := List.mem_of_find?_eq_some hfind
      have hp := List.find?_some hfind
      have hpos : 0 < c.entries.length := List.length_pos.mpr (List.ne_nil_of_mem hmem)
      have herase := List.length_eraseP_of_mem (p := fun q => q.1 == k) hmem hp
      simp only [List.length_cons, herase]
      omega

theorem putIfAbsent_max_size (c : LRUCache K V) (k : K) (v : V) :
    ((c.putIfAbsent k v).2).max_size = c.max_size := by
  unfold putIfAbsent
  split
  · rfl
  · dsimp only

theorem putIfAbsent_length_le (c : LRUCache K V) (k : K) (v : V)
    (h : c.entries.length ≤ c.max_size) :
    ((c.putIfAbsent k v).2).entries.length ≤ c.max_size := by
  unfold putIfAbsent
  split
  · exact h
  · dsimp only
    split
    · rename_i hgt
      simp only [List.length_dropLast, List.length_cons] at *
      omega
    · rename_i hle
      simp only [List.length_cons] at *
      omega

theorem applyOp_max_size (c : LRUCache K V) (op : Op K V) :
    (c.applyOp op).max_size = c.max_size := by
  cases op with
  | get k => exact get_max_size c k
  | put k v => exact putIfAbsent_max_size c k v

theorem applyOp_length_le (c : LRUCache K V) (op : Op K V)
    (h : c.entries.length ≤ c.max_size) :
    (c.applyOp op).entries.length ≤ c.max_size := by
  cases op with
  | get k => rw [applyOp, get_length]; exact h
  | put k v => exact putIfAbsent_length_le c k v h

theorem runOps_length_le (c : LRUCache K V) (ops : List (Op K V))
    (h : c.entries.length ≤ c.max_size) :
    (c.runOps ops).entries.length ≤ (c.runOps ops).max_size := by
  induction ops generalizing c with
  | nil => exact h
  | cons op ops ih =>
      have h1 : (c.applyOp op).entries.length ≤ (c.applyOp op).max_size := by
        rw [applyOp_max_size]; exact applyOp_length_le c op h
      exact ih _ h1

theorem runOps_max_size (c : LRUCache K V) (ops : List (Op K V)) :
    (c.runOps ops).max_size = c.max_size := by
  induction ops generalizing c with
  | nil => rfl
  | cons op ops ih =>
      have hstep : c.runOps (op :: ops) = (c.applyOp op).runOps ops := rfl
      rw [hstep, ih, applyOp_max_size]

theorem putIfAbsent_fresh (c : LRUCache K V) (k : K) (v : V)
    (hk : c.containsKey k = false) (hlen : c.entries.length ≤ c.max_size) :
    (c.putIfAbsent k v).2 =
      { c with entries := ((k, v) :: c.entries).take c.max_size } := by
  have hlc : ((k, v) :: c.entries).length = c.entries.length + 1 := List.length_cons _ _
  unfold putIfAbsent
  rw [hk]
  simp only [Bool.false_eq_true, if_false]
  split
  · rename_i hgt
    have hmax : c.entries.length = c.max_size := by omega
    rw [List.dropLast_eq_take]
    congr 1
    rw [hlc, Nat.add_sub_cancel, hmax]
  · rename_i hle
    congr 1
    refine (List.take_of_length_le ?_).symm
    omega

theorem take_append_take {A : Type} (X Y : List A) (n : Nat) :
    (X ++ Y.take n).take n = (X ++ Y).take n := by
  rw [List.take_append_eq_append_take, List.take_append_eq_append_take, List.take_take]
  rw [Nat.min_eq_left (Nat.sub_le n X.length)]

theorem insertKeys_entries (ks : List K) (f : K → V) :
    ∀ (c : LRUCache K V), (∀ k ∈ ks, c.containsKey k = false) → ks.Nodup →
      c.entries.length ≤ c.max_size →
      insertKeys c ks f =
        { c with entries := ((ks.map (fun k => (k, f k))).reverse ++ c.entries).take c.max_size } := by
  induction ks with
  | nil =>
      intro c h1 h2 h3
      simp only [insertKeys, List.foldl_nil, List.map_nil, List.reverse_nil, List.nil_append]
      rw [List.take_of_length_le h3]
  | cons k ks ih =>
      intro c h1 h2 h3
      have hk : c.containsKey k = false := h1 k (List.mem_cons_self k ks)
      have hstep : insertKeys c (k :: ks) f = insertKeys ((c.putIfAbsent k (f k)).2) ks f := rfl
      rw [hstep, putIfAbsent_fresh c k (f k) hk h3]
      set c' : LRUCache K V :=
        { c with entries := ((k, f k) :: c.entries).take c.max_size } with hc'
      have hnodup := h2
      rw [List.nodup_cons] at hnodup
      have habsent : ∀ k' ∈ ks, c'.containsKey k' = false := by
        intro k' hk'
        have hne : k' ≠ k := fun heq => hnodup.1 (heq ▸ hk')
        have hck : c.containsKey k' = false := h1 k' (List.mem_cons_of_mem k hk')
        simp only [containsKey, List.any_eq_false] at hck ⊢
        intro p hp
        have hp' : p ∈ (k, f k) :: c.entries := List.take_subset _ _ hp
        rcases List.mem_cons.mp hp' with h | h
        · subst h
          simp only [beq_iff_eq]
          exact fun heq => hne heq.symm
        · exact hck p h
      have hlen' : c'.entries.length ≤ c'.max_size := by
        simp only [hc', List.length_take]
        exact Nat.min_le_left _ _
      have hrec := ih c' habsent hnodup.2 hlen'
      rw [hrec]
      simp only [hc']
      congr 1
      have h1' : ((ks.map (fun k => (k, f k))).reverse ++
            ((k, f k) :: c.entries).take c.max_size).take c.max_size
          = ((ks.map (fun k => (k, f k))).reverse ++ ((k, f k) :: c.entries)).take c.max_size :=
        take_append_take _ _ _
      rw [h1']
      simp only [List.map_cons, List.reverse_cons, List.append_assoc, List.singleton_append]

theorem lookup_of_all_ne (c : LRUCache K V) (k : K)
    (h : ∀ p ∈ c.entries, p.1 ≠ k) : c.lookup k = none := by
  unfold lookup
  rw [List.find?_eq_none.mpr]
  · rfl
  · intro p hp
    simp only [beq_iff_eq]
    exact h p hp

theorem lookup_map_pairs (n : Nat) (l : List K) (f : K → V) (k : K) (hmem : k ∈ l) :
    (LRUCache.mk n (l.map (fun k => (k, f k))) : LRUCache K V).lookup k = some (f k) := by
  unfold lookup
  cases hfind : (l.map (fun k => (k, f k))).find? (fun p => p.1 == k) with
  | none =>
      exfalso
      rw [List.find?_eq_none] at hfind
      exact hfind (k, f k) (List.mem_map_of_mem _ hmem) (by simp)
  | some p =>
      have hp := List.find?_some hfind
      have hpm := List.mem_of_find?_eq_some hfind
      rw [List.mem_map] at hpm
      obtain ⟨x, hx, hxp⟩ := hpm
      rw [beq_iff_eq] at hp
      have hxk : x = k := by rw [← hxp] at hp; exact hp
      subst hxk
      rw [← hxp]
      rfl

theorem putIfAbsent_present (c : LRUCache K V) (k : K) (v : V)
    (h : c.containsKey k = true) : c.putIfAbsent k v = (false, c) := by
  unfold putIfAbsent
  rw [h]
  simp

theorem runOps_zero_eq_empty (ops : List (Op K V)) :
    (empty K V 0).runOps ops = empty K V 0 := by
  induction ops with
  | nil => rfl
  | cons op ops ih =>
      have hstep : (empty K V 0).runOps (op :: ops) = ((empty K V 0).applyOp op).runOps ops := rfl
      have hop : (empty K V 0).applyOp op = empty K V 0 := by
        cases op with
        | get k => rfl
        | put k v => rfl
      rw [hstep, hop, ih]

end LRUCache

theorem insertKeys_empty_entries {K V : Type} [DecidableEq K]
    (cap : Nat) (ks : List K) (f : K → V) (hnd : ks.Nodup) :
    LRUCache.insertKeys (LRUCache.empty K V cap) ks f =
      LRUCache.mk cap (((ks.map (fun k => (k, f k))).reverse).take cap) := by
  have h := LRUCache.insertKeys_entries ks f (LRUCache.empty K V cap)
      (fun k _ => rfl) hnd (Nat.zero_le _)
  rw [h]
  simp [LRUCache.empty]

end AwsSecretsCache

/-! ## Claim theorems -/

namespace AwsSecretsCache

/-- Claim C1 (code divergence).  In the end-to-end scenario — a cache with
the default configuration over a stubbed backend whose
`describe_secret("id")` stages version `"v1"` as `AWSCURRENT` and whose
`get_secret_value("id", "v1")` payload string is `"mysecret"` — already the
first `get_secret_string("id")` raises `AttributeError` instead of
returning `"mysecret"`: the item's `_get_version` resolves the mangled name
`_SecretCacheItem__get_result`, which does not exist (and, independently,
the default configuration lacks the `secret_cache_hook` attribute that
`__set_result` reads). -/
theorem end_to_end_get_secret_string_raises :
    (getSecretString (secretCacheInit defaultCacheConfig 1024 endToEndStubClient)
        "id" 0 1800 none).1
      = Except.error PyErr.attributeError
    ∧ (getSecretString (secretCacheInit defaultCacheConfig 1024 endToEndStubClient)
        "id" 0 1800 none).1
      ≠ Except.ok (some "mysecret") := by
  refine ⟨rfl, fun hcontra => ?_⟩
  have h1 : (getSecretString (secretCacheInit defaultCacheConfig 1024 endToEndStubClient)
      "id" 0 1800 none).1 = Except.error PyErr.attributeError := rfl
  rw [h1] at hcontra
  exact Except.noConfusion hcontra

/-- Claim C2 (code divergence).  A `SecretCacheVersion` entry over a
hook-carrying configuration completes one successful refresh, storing the
payload; a subsequent forced, failing fetch indeed leaves the stored result
unchanged (first half of the claim), but `get_secret_value` then raises
`AttributeError` — from the mangled `_SecretCacheVersion__get_result`
lookup in `_get_version` — instead of returning the previously fetched
value (second half of the claim). -/
theorem stale_result_retained_but_get_value_raises :
    (versionRefresh hookedCacheConfig objectInit 0
        (Except.ok ⟨some "mysecret", none⟩)).result
      = some (CachedResult.secretValue ⟨some "mysecret", none⟩)
    ∧ (versionRefresh hookedCacheConfig objectInit 0
        (Except.ok ⟨some "mysecret", none⟩)).exception = none
    ∧ ((versionGetSecretValue hookedCacheConfig
          { versionRefresh hookedCacheConfig objectInit 0
              (Except.ok ⟨some "mysecret", none⟩) with refresh_needed := true }
          5 (Except.error (PyErr.clientError "boom")) none).2).result
      = some (CachedResult.secretValue ⟨some "mysecret", none⟩)
    ∧ ((versionGetSecretValue hookedCacheConfig
          { versionRefresh hookedCacheConfig objectInit 0
              (Except.ok ⟨some "mysecret", none⟩) with refresh_needed := true }
          5 (Except.error (PyErr.clientError "boom")) none).2).exception
      = some (PyErr.clientError "boom")
    ∧ (versionGetSecretValue hookedCacheConfig
          { versionRefresh hookedCacheConfig objectInit 0
              (Except.ok ⟨some "mysecret", none⟩) with refresh_needed := true }
          5 (Except.error (PyErr.clientError "boom")) none).1
      = Except.error PyErr.attributeError := by
  refine ⟨rfl, rfl, rfl, rfl, rfl⟩

/-- Claim C3 (code divergence).  A `SecretCacheItem` over a hook-carrying
configuration refreshes successfully from a backend whose metadata carries
no `"VersionIdsToStages"` key, so no exception is stored and stage
resolution (per `_get_version_id`) yields nothing; the claim says
`get_secret_value` then returns an absent result without raising, but the
code raises `AttributeError` from the mangled
`_SecretCacheItem__get_result` lookup in `_get_version`. -/
theorem unresolved_stage_raises_instead_of_absent :
    ((itemGetSecretValue hookedCacheConfig noVersionsStubClient
        (itemInit "test" 0) 0 3600 none).2).base.exception = none
    ∧ getVersionId (some ⟨none, true⟩) "AWSCURRENT" = none
    ∧ (itemGetSecretValue hookedCacheConfig noVersionsStubClient
        (itemInit "test" 0) 0 3600 none).1
      = Except.error PyErr.attributeError := by
  refine ⟨rfl, rfl, rfl⟩

/-- Claim C4 (confirmed).  For the shared refresh logic of
`SecretCacheObject.__refresh`: when a refresh is due and the fetch raises,
the Nth consecutive failure (entered with `exception_count = N - 1`) sets
`next_retry_time` to the failure time plus
`min(exception_retry_delay_base * exception_retry_growth_factor ^ (N - 1),
exception_retry_delay_max)` milliseconds, increments the exception counter
to `N` and stores the exception; when a due refresh succeeds (fetch and
store both succeed, which requires a present hook attribute), the stored
exception is cleared and the counter is reset to zero. -/
theorem exception_backoff_growth_and_reset (cfg : CacheConfig)
    (s t : SecretCacheObjectState) (now tnow : Nat) (e : PyErr)
    (sv : SecretValue) (h : Hook) (N : Nat)
    (hcount : s.exception_count + 1 = N)
    (hs : isRefreshNeededBase s now = true)
    (ht : isRefreshNeededBase t tnow = true)
    (hhook : cfg.secret_cache_hook = some (some h)) :
    ((versionRefresh cfg s now (Except.error e)).next_retry_time
        = some (now + min (cfg.exception_retry_delay_base *
              cfg.exception_retry_growth_factor ^ (N - 1)) cfg.exception_retry_delay_max)
      ∧ (versionRefresh cfg s now (Except.error e)).exception_count = N
      ∧ (versionRefresh cfg s now (Except.error e)).exception = some e)
    ∧ (versionRefresh cfg t tnow (Except.ok sv)).exception = none
    ∧ (versionRefresh cfg t tnow (Except.ok sv)).exception_count = 0 := by
  have hN1 : N - 1 = s.exception_count := by omega
  unfold versionRefresh
  rw [hs, ht]
  simp only [not_true, if_false, setResult, hhook, applyBackoff]
  refine ⟨⟨?_, ?_, ?_⟩, ?_, ?_⟩ <;>
    first
    | rw [hN1]
    | omega
    | trivial

/-- Witness for C4: a third consecutive failure at time 7 with base 1,
growth 2, cap 3600 schedules the retry at `7 + min (1 * 2 ^ 2) 3600`, and a
successful refresh resets the exception state. -/
theorem exception_backoff_growth_and_reset_witness :
    ((SecretCacheObjectState.mk none none 2 true none).exception_count + 1 = 3
      ∧ isRefreshNeededBase (SecretCacheObjectState.mk none none 2 true none) 7 = true
      ∧ isRefreshNeededBase objectInit 0 = true
      ∧ (CacheConfig.mk 1 2 3600 "AWSCURRENT" 3600
            (some (some (Hook.mk id id)))).secret_cache_hook
          = some (some (Hook.mk id id)))
    ∧ (((versionRefresh (CacheConfig.mk 1 2 3600 "AWSCURRENT" 3600 (some (some (Hook.mk id id))))
            (SecretCacheObjectState.mk none none 2 true none) 7
            (Except.error (PyErr.clientError "x"))).next_retry_time
          = some (7 + min ((CacheConfig.mk 1 2 3600 "AWSCURRENT" 3600
                (some (some (Hook.mk id id)))).exception_retry_delay_base *
              (CacheConfig.mk 1 2 3600 "AWSCURRENT" 3600
                (some (some (Hook.mk id id)))).exception_retry_growth_factor ^ (3 - 1))
              (CacheConfig.mk 1 2 3600 "AWSCURRENT" 3600
                (some (some (Hook.mk id id)))).exception_retry_delay_max)
        ∧ (versionRefresh (CacheConfig.mk 1 2 3600 "AWSCURRENT" 3600 (some (some (Hook.mk id id))))
            (SecretCacheObjectState.mk none none 2 true none) 7
            (Except.error (PyErr.clientError "x"))).exception_count = 3
        ∧ (versionRefresh (CacheConfig.mk 1 2 3600 "AWSCURRENT" 3600 (some (some (Hook.mk id id))))
            (SecretCacheObjectState.mk none none 2 true none) 7
            (Except.error (PyErr.clientError "x"))).exception = some (PyErr.clientError "x"))
      ∧ (versionRefresh (CacheConfig.mk 1 2 3600 "AWSCURRENT" 3600 (some (some (Hook.mk id id))))
          objectInit 0 (Except.ok ⟨some "v", none⟩)).exception = none
      ∧ (versionRefresh (CacheConfig.mk 1 2 3600 "AWSCURRENT" 3600 (some (some (Hook.mk id id))))
          objectInit 0 (Except.ok ⟨some "v", none⟩)).exception_count = 0) := by
  refine ⟨⟨rfl, rfl, rfl, rfl⟩, ?_⟩
  exact exception_backoff_growth_and_reset
    (CacheConfig.mk 1 2 3600 "AWSCURRENT" 3600 (some (some (Hook.mk id id))))
    (SecretCacheObjectState.mk none none 2 true none) objectInit 7 0
    (PyErr.clientError "x") ⟨some "v", none⟩ (Hook.mk id id) 3 rfl rfl rfl rfl

/-- Claim C5 (code divergence).  `SecretCache.refresh_secret_now(secret_id)`
does get-or-create the entry, but the subsequent method call raises
`AttributeError` because no class in `cache/items.py` defines a
`refresh_secret_now` method; the claimed setting of the "refresh needed"
flag never happens. -/
theorem refresh_secret_now_missing_method_raises :
    refreshSecretNow (secretCacheInit defaultCacheConfig 1024 endToEndStubClient) "test" 0
      = Except.error PyErr.attributeError := rfl

/-- Claim C6 (confirmed).  Starting from an empty `LRUCache` of capacity
`cap`, any sequence of `get` / `put_if_absent` operations leaves at most
`cap` mapped entries; and after inserting `cap + 1` distinct keys with no
intervening gets, the first-inserted key is the evicted one — its `get`
returns absent — while each of the `cap` most recent keys is still
retrievable with its stored value. -/
theorem lru_capacity_invariant_and_eviction {K V : Type} [DecidableEq K]
    (cap : Nat) (ops : List (LRUCache.Op K V)) (k₀ : K) (rest : List K) (f : K → V)
    (hnd : (k₀ :: rest).Nodup) (hlen : rest.length = cap) :
    ((LRUCache.empty K V cap).runOps ops).entries.length ≤ cap
    ∧ ((LRUCache.insertKeys (LRUCache.empty K V cap) (k₀ :: rest) f).get k₀).1 = none
    ∧ ∀ k ∈ rest,
        ((LRUCache.insertKeys (LRUCache.empty K V cap) (k₀ :: rest) f).get k).1 = some (f k) := by
  have hcap : ((LRUCache.empty K V cap).runOps ops).entries.length ≤ cap := by
    have h1 := LRUCache.runOps_length_le (LRUCache.empty K V cap) ops (Nat.zero_le _)
    rwa [LRUCache.runOps_max_size] at h1
  have hfinal : LRUCache.insertKeys (LRUCache.empty K V cap) (k₀ :: rest) f =
      LRUCache.mk cap ((rest.reverse).map (fun k => (k, f k))) := by
    rw [insertKeys_empty_entries cap (k₀ :: rest) f hnd]
    congr 1
    rw [List.map_cons, List.reverse_cons]
    rw [List.take_left']
    · rw [List.map_reverse]
    · simp [hlen]
  have hk₀ : k₀ ∉ rest := (List.nodup_cons.mp hnd).1
  refine ⟨hcap, ?_, ?_⟩
  · rw [LRUCache.get_fst, hfinal]
    apply LRUCache.lookup_of_all_ne
    intro p hp
    rw [List.mem_map] at hp
    obtain ⟨x, hx, hxp⟩ := hp
    rw [← hxp]
    intro hcontra
    exact hk₀ (hcontra ▸ (List.mem_reverse.mp hx))
  · intro k hk
    rw [LRUCache.get_fst, hfinal]
    exact LRUCache.lookup_map_pairs cap rest.reverse f k (List.mem_reverse.mpr hk)

/-- Witness for C6: capacity 2, a concrete operation sequence, and the
distinct keys 0, 1, 2 — key 0 is evicted, keys 1 and 2 remain. -/
theorem lru_capacity_invariant_and_eviction_witness :
    (([0, 1, 2] : List Nat).Nodup ∧ ([1, 2] : List Nat).length = 2)
    ∧ ((LRUCache.empty Nat Nat 2).runOps
        [LRUCache.Op.put 0 0, LRUCache.Op.get 0, LRUCache.Op.put 1 1,
         LRUCache.Op.put 2 2]).entries.length ≤ 2
    ∧ ((LRUCache.insertKeys (LRUCache.empty Nat Nat 2) [0, 1, 2] (fun k => k + 10)).get 0).1 = none
    ∧ ((LRUCache.insertKeys (LRUCache.empty Nat Nat 2) [0, 1, 2] (fun k => k + 10)).get 1).1
        = some 11
    ∧ ((LRUCache.insertKeys (LRUCache.empty Nat Nat 2) [0, 1, 2] (fun k => k + 10)).get 2).1
        = some 12 := by
  have h := lru_capacity_invariant_and_eviction 2
      [LRUCache.Op.put 0 0, LRUCache.Op.get 0, LRUCache.Op.put 1 1, LRUCache.Op.put 2 2]
      0 [1, 2] (fun k => k + 10) (by decide) (by decide)
  exact ⟨⟨by decide, by decide⟩, h.1, h.2.1, h.2.2 1 (by decide), h.2.2 2 (by decide)⟩

/-- Claim C7 (confirmed).  `put_if_absent` on a key that is already present
returns `False` and changes nothing at all — stored value and recency
included; and on a cache of capacity at least 1, `put_if_absent(k, v₁)`
followed by `put_if_absent(k, v₂)` leaves the cache holding `v₁`, the
second call returning `False`. -/
theorem put_if_absent_present_is_noop {K V : Type} [DecidableEq K]
    (c c' : LRUCache K V) (k : K) (v₁ v₂ : V)
    (hpresent : c.containsKey k = true)
    (habsent : c'.containsKey k = false) (hcap : 1 ≤ c'.max_size)
    (hinv : c'.entries.length ≤ c'.max_size) :
    c.putIfAbsent k v₂ = (false, c)
    ∧ (((c'.putIfAbsent k v₁).2).putIfAbsent k v₂).1 = false
    ∧ ((((c'.putIfAbsent k v₁).2).putIfAbsent k v₂).2).lookup k = some v₁ := by
  have hfirst : (c'.putIfAbsent k v₁).2 =
      { c' with entries := ((k, v₁) :: c'.entries).take c'.max_size } :=
    LRUCache.putIfAbsent_fresh c' k v₁ habsent hinv
  have hhead : ((k, v₁) :: c'.entries).take c'.max_size =
      (k, v₁) :: c'.entries.take (c'.max_size - 1) := List.take_cons hcap
  have hcontains : ((c'.putIfAbsent k v₁).2).containsKey k = true := by
    rw [hfirst]
    simp only [LRUCache.containsKey, hhead, List.any_cons, beq_self_eq_true, Bool.true_or]
  have hsecond : ((c'.putIfAbsent k v₁).2).putIfAbsent k v₂ =
      (false, (c'.putIfAbsent k v₁).2) :=
    LRUCache.putIfAbsent_present _ k v₂ hcontains
  refine ⟨LRUCache.putIfAbsent_present c k v₂ hpresent, ?_, ?_⟩
  · rw [hsecond]
  · rw [hsecond, hfirst]
    simp only [LRUCache.lookup, hhead]
    rw [List.find?_cons_of_pos _ (by simp)]
    rfl

/-- Witness for C7: a one-entry cache already holding key 0, and a fresh
capacity-2 cache receiving value 6 then value 7 under key 0. -/
theorem put_if_absent_present_is_noop_witness :
    ((LRUCache.mk 1 [((0 : Nat), (5 : Nat))]).containsKey 0 = true
      ∧ (LRUCache.empty Nat Nat 2).containsKey 0 = false
      ∧ 1 ≤ (LRUCache.empty Nat Nat 2).max_size
      ∧ (LRUCache.empty Nat Nat 2).entries.length ≤ (LRUCache.empty Nat Nat 2).max_size)
    ∧ ((LRUCache.mk 1 [((0 : Nat), (5 : Nat))]).putIfAbsent 0 7
        = (false, LRUCache.mk 1 [(0, 5)])
      ∧ ((((LRUCache.empty Nat Nat 2).putIfAbsent 0 6).2).putIfAbsent 0 7).1 = false
      ∧ (((((LRUCache.empty Nat Nat 2).putIfAbsent 0 6).2).putIfAbsent 0 7).2).lookup 0
        = some 6) := by
  refine ⟨⟨by decide, by decide, by decide, by decide⟩, ?_⟩
  exact put_if_absent_present_is_noop (LRUCache.mk 1 [((0 : Nat), (5 : Nat))])
    (LRUCache.empty Nat Nat 2) 0 6 7 (by decide) (by decide) (by decide) (by decide)

/-- Claim C8 (confirmed).  On a capacity-0 cache — in every state reachable
by any operation sequence from the empty cache — the entry list is empty,
`put_if_absent` inserts and immediately evicts the just-inserted entry
(returning `True` and leaving the cache in the same empty state), and `get`
returns absent for every key. -/
theorem zero_capacity_cache_retains_nothing {K V : Type} [DecidableEq K]
    (ops : List (LRUCache.Op K V)) (k : K) (v : V) :
    ((LRUCache.empty K V 0).runOps ops).entries = []
    ∧ ((LRUCache.empty K V 0).runOps ops).putIfAbsent k v =
        (true, (LRUCache.empty K V 0).runOps ops)
    ∧ (((LRUCache.empty K V 0).runOps ops).get k).1 = none := by
  rw [LRUCache.runOps_zero_eq_empty]
  exact ⟨rfl, rfl, rfl⟩

/-- Claim C9 counterexample.  The claim's recognized-option set and defaults
do not match the code: `SecretCacheConfig(secret_cache_hook=...)` raises
`TypeError` (the hook is not a recognized option), the default
`exception_retry_delay_base` is 1 millisecond, not 1000, and the default
`exception_retry_delay_max` is 3600 milliseconds, not 3,600,000. -/
theorem config_defaults_and_hook_counterexample :
    secretCacheConfigInit [("secret_cache_hook", PyVal.int 0)]
      = Except.error (PyErr.typeError "secret_cache_hook")
    ∧ configAttr OPTION_DEFAULTS "exception_retry_delay_base" = some (PyVal.int 1)
    ∧ configAttr OPTION_DEFAULTS "exception_retry_delay_max" = some (PyVal.int 3600)
    ∧ PyVal.int 1 ≠ PyVal.int 1000
    ∧ PyVal.int 3600 ≠ PyVal.int 3600000 := by
  refine ⟨rfl, by decide, by decide, by decide, by decide⟩

/-- Claim C9 as amended (corrected).  Configuration construction recognizes
exactly the six options `max_cache_size` (default 1024),
`exception_retry_delay_base` (milliseconds, default 1),
`exception_retry_growth_factor` (default 2), `exception_retry_delay_max`
(milliseconds, default 3600), `default_version_stage` (default
`AWSCURRENT`) and `secret_refresh_interval` (seconds, default the float
3600.0); a recognized keyword overrides its default, and any other keyword
— `secret_cache_hook` included — fails construction immediately with a
`TypeError` naming it. -/
theorem config_recognizes_exactly_six_options :
    secretCacheConfigInit [] = Except.ok OPTION_DEFAULTS
    ∧ (∀ (k : String) (v : PyVal), k ∈ recognizedOptionNames →
        secretCacheConfigInit [(k, v)] = Except.ok (setOption OPTION_DEFAULTS k v))
    ∧ (∀ (k : String) (v : PyVal), k ∉ recognizedOptionNames →
        secretCacheConfigInit [(k, v)] = Except.error (PyErr.typeError k)) := by
  have hiff : ∀ k : String,
      (OPTION_DEFAULTS.any (fun p => p.1 == k) = true) ↔ k ∈ recognizedOptionNames := by
    intro k
    simp only [OPTION_DEFAULTS, recognizedOptionNames, List.any_cons, List.any_nil,
      Bool.or_eq_true, beq_iff_eq, List.mem_cons, List.not_mem_nil, or_false,
      Bool.false_eq_true]
    constructor
    · rintro (h | h | h | h | h | h) <;> simp [h.symm]
    · rintro (h | h | h | h | h | h) <;> simp [h]
  have hsingle : ∀ (k : String) (v : PyVal),
      secretCacheConfigInit [(k, v)] =
        if OPTION_DEFAULTS.any (fun p => p.1 == k) then
          Except.ok (setOption OPTION_DEFAULTS k v)
        else Except.error (PyErr.typeError k) := by
    intro k v
    unfold secretCacheConfigInit
    simp only [List.foldlM]
    split <;> simp_all
  refine ⟨rfl, ?_, ?_⟩
  · intro k v hk
    rw [hsingle, if_pos ((hiff k).mpr hk)]
  · intro k v hk
    rw [hsingle, if_neg]
    intro hcontra
    exact hk ((hiff k).mp hcontra)

/-- Witness for the amended C9: a recognized option overrides its default
and an unrecognized one is rejected. -/
theorem config_recognizes_exactly_six_options_witness :
    ("max_cache_size" ∈ recognizedOptionNames
      ∧ secretCacheConfigInit [("max_cache_size", PyVal.int 7)]
          = Except.ok (setOption OPTION_DEFAULTS "max_cache_size" (PyVal.int 7)))
    ∧ ("nonsense_option" ∉ recognizedOptionNames
      ∧ secretCacheConfigInit [("nonsense_option", PyVal.int 7)]
          = Except.error (PyErr.typeError "nonsense_option")) := by
  refine ⟨⟨by decide, ?_⟩, ⟨by decide, ?_⟩⟩
  · exact config_recognizes_exactly_six_options.2.1 "max_cache_size" (PyVal.int 7) (by decide)
  · exact config_recognizes_exactly_six_options.2.2 "nonsense_option" (PyVal.int 7) (by decide)

/-- Claim C10 (confirmed).  In `get_secret_value` the `if not version_stage`
guard replaces every falsy requested stage — `None` and the empty string
alike — by the configured `default_version_stage` before anything else
happens, and consequently a call with the empty-string stage behaves
exactly like a call with no stage at all, on both entry kinds. -/
theorem falsy_stage_normalized_to_default :
    (∀ d : String, normalizeStage d (some "") = normalizeStage d none ∧ normalizeStage d none = d)
    ∧ (∀ (cfg : CacheConfig) (client : SMClient) (s : SecretCacheItemState) (now jitter : Nat),
        itemGetSecretValue cfg client s now jitter (some "")
          = itemGetSecretValue cfg client s now jitter none)
    ∧ (∀ (cfg : CacheConfig) (s : SecretCacheObjectState) (now : Nat)
        (fetch : Except PyErr SecretValue),
        versionGetSecretValue cfg s now fetch (some "")
          = versionGetSecretValue cfg s now fetch none) := by
  exact ⟨fun d => ⟨rfl, rfl⟩, fun cfg client s now jitter => rfl, fun cfg s now fetch => rfl⟩

end AwsSecretsCache
